import Mathlib

/-!
Shallow embedding of the storage layer of LocalFixConnect
(`src/server/storage.ts`): the entity model, the in-memory backend
(`MemStorage`, backed by JavaScript `Map`s), the relational backend
(`DbStorage`, whose tables are modelled as row lists and whose queries
follow drizzle/SQL semantics), and both seed routines.  Theorems at the
end of the file settle the frozen claims about filter semantics, default
values, seeding, update/delete behaviour and frame properties.
-/

/-- Model of a JavaScript `Map` with string keys: an ordered list of
key/value entries.  `set` replaces in place when the key is present
(preserving insertion order, as `Map.set` does) and appends otherwise;
`get` returns the first entry with the key; `eraseKey` removes the entry
with the key (keys of a real `Map` are unique, so removing every entry
with the key coincides with `Map.delete`). -/
structure JsMap (α : Type) where
  entries : List (String × α)
deriving Repr, DecidableEq

namespace JsMap

def emptyMap {α : Type} : JsMap α := ⟨[]⟩

def get {α : Type} (m : JsMap α) (k : String) : Option α :=
  (m.entries.find? (fun e => e.1 == k)).map (fun e => e.2)

def hasKey {α : Type} (m : JsMap α) (k : String) : Bool :=
  m.entries.any (fun e => e.1 == k)

def set {α : Type} (m : JsMap α) (k : String) (v : α) : JsMap α :=
  if m.hasKey k then
    ⟨m.entries.map (fun e => if e.1 == k then (k, v) else e)⟩
  else
    ⟨m.entries ++ [(k, v)]⟩

def eraseKey {α : Type} (m : JsMap α) (k : String) : JsMap α :=
  ⟨m.entries.filter (fun e => !(e.1 == k))⟩

def values {α : Type} (m : JsMap α) : List α :=
  m.entries.map (fun e => e.2)

end JsMap

/-- JavaScript `String.prototype.startsWith` on character lists. -/
def charsStartWith : List Char → List Char → Bool
  | _, [] => true
  | [], _ :: _ => false
  | c :: cs, d :: ds => c == d && charsStartWith cs ds

/-- JavaScript `String.prototype.includes` on character lists. -/
def charsInclude : List Char → List Char → Bool
  | [], sub => sub.isEmpty
  | c :: cs, sub => charsStartWith (c :: cs) sub || charsInclude cs sub

/-- JavaScript `s.includes(sub)` (case-sensitive substring test). -/
def strIncludes (s sub : String) : Bool :=
  charsInclude s.toList sub.toList

/-- Tries a matcher on every suffix of the text (including the empty
one): the continuation of a `%` wildcard, which may consume any number
of characters. -/
def tryDrops (f : List Char → Bool) : List Char → Bool
  | [] => f []
  | c :: cs => f (c :: cs) || tryDrops f cs

/-- SQL `LIKE` pattern matching (PostgreSQL semantics, case-sensitive):
`%` matches any sequence of characters, `_` matches any single
character, every other pattern character matches itself. -/
def likeMatch : List Char → List Char → Bool
  | [], t => t.isEmpty
  | '%' :: ps, t => tryDrops (likeMatch ps) t
  | '_' :: ps, t =>
    (match t with
     | [] => false
     | _ :: ts => likeMatch ps ts)
  | p :: ps, t =>
    (match t with
     | [] => false
     | c :: ts => p == c && likeMatch ps ts)

/-- SQL `column LIKE pattern` on strings. -/
def sqlLike (pattern text : String) : Bool :=
  likeMatch pattern.toList text.toList

/-- JavaScript truthiness of an optional string filter field:
`undefined` and the empty string are falsy, every other string is
truthy.  `if (filters?.field)` in the source is exactly this test. -/
def truthyStr : Option String → Bool
  | none => false
  | some s => !(s == "")

/-- Identifier generation (`randomUUID()` in the source): only
uniqueness matters, modelled by a counter rendered into a string. -/
def genId (n : Nat) : String := "uuid-" ++ toString n

/-- One guarded filter stage of the listing pipelines:
`if (filters?.field !== undefined) list = list.filter(...)`. -/
def optFilter {α β : Type} (o : Option β) (q : α → β → Bool) (l : List α) : List α :=
  match o with
  | some b => l.filter (fun x => q x b)
  | none => l

/-- One truthiness-guarded filter stage of the listing pipelines:
`if (filters?.field) list = list.filter(...)`, where the field's value
reaches the predicate only when it is truthy. -/
def truthyFilter {α : Type} (o : Option String) (q : α → String → Bool) (l : List α) :
    List α :=
  if truthyStr o then l.filter (fun x => q x (o.getD "")) else l

/-! ## Entity model (`@shared/schema` types as materialized by the
storage layer; field inventory taken from the default-filling code of
`MemStorage.createUser` / `createProvider` / `createBooking` /
`createReview`).  `createdAt` timestamps are modelled as the value of
the identifier counter at creation time; no verified property depends
on them. -/

structure User where
  id : String
  email : String
  password : String
  firstName : String
  lastName : String
  phone : Option String
  role : String
  createdAt : Nat
deriving Repr, DecidableEq

structure InsertUser where
  email : String
  password : String
  firstName : String
  lastName : String
  phone : Option String := none
  role : Option String := none
deriving Repr, DecidableEq

structure ServiceCategory where
  id : String
  name : String
  description : Option String
  icon : String
  color : String
deriving Repr, DecidableEq

structure InsertServiceCategory where
  name : String
  description : Option String := none
  icon : String
  color : String
deriving Repr, DecidableEq

structure Provider where
  id : String
  userId : String
  specialty : String
  businessName : Option String
  location : String
  description : Option String
  hourlyRate : Option String
  isApproved : Bool
  isAvailable : Bool
  serviceRadius : Option String
  rating : String
  reviewCount : Nat
  categories : List String
  availability : Option String
  profileImage : Option String
  portfolio : List String
  certifications : List String
  yearsExperience : Option Nat
  createdAt : Nat
deriving Repr, DecidableEq

structure InsertProvider where
  userId : String
  specialty : String
  businessName : Option String := none
  location : Option String := none
  description : Option String := none
  hourlyRate : Option String := none
  isApproved : Option Bool := none
  isAvailable : Option Bool := none
  serviceRadius : Option String := none
  rating : Option String := none
  reviewCount : Option Nat := none
  categories : Option (List String) := none
  availability : Option String := none
  profileImage : Option String := none
  portfolio : Option (List String) := none
  certifications : Option (List String) := none
  yearsExperience : Option Nat := none
deriving Repr, DecidableEq

structure ProviderCategory where
  id : String
  providerId : String
  categoryId : String
deriving Repr, DecidableEq

structure Booking where
  id : String
  customerId : String
  providerId : String
  status : String
  estimatedDuration : Option Nat
  estimatedCost : Option String
  actualCost : Option String
  notes : Option String
  createdAt : Nat
deriving Repr, DecidableEq

structure InsertBooking where
  customerId : String
  providerId : String
  status : Option String := none
  estimatedDuration : Option Nat := none
  estimatedCost : Option String := none
  actualCost : Option String := none
  notes : Option String := none
deriving Repr, DecidableEq

structure Review where
  id : String
  providerId : String
  customerId : String
  bookingId : String
  rating : Nat
  comment : Option String
  isVisible : Bool
  createdAt : Nat
deriving Repr, DecidableEq

structure InsertReview where
  providerId : String
  customerId : String
  bookingId : String
  rating : Nat
  comment : Option String := none
  isVisible : Option Bool := none
deriving Repr, DecidableEq

/-- The denormalized user summary attached by `MemStorage.getProviders`
(`{ id, firstName, lastName, email }`). -/
structure UserSummary where
  id : String
  firstName : String
  lastName : String
  email : String
deriving Repr, DecidableEq

/-- A provider record augmented with its linked user summary, as spread
together by `MemStorage.getProviders` (`{ ...provider, user }`). -/
structure ProviderWithUser extends Provider where
  user : Option UserSummary
deriving Repr, DecidableEq

def mkUserSummary (u : User) : UserSummary :=
  { id := u.id, firstName := u.firstName, lastName := u.lastName, email := u.email }

/-! ## Partial-update objects (`Partial<T>` in the source) and the
spread merge `{ ...record, ...updates }`: a field present in the update
wins, every other field keeps the stored value. -/

structure UserPatch where
  id : Option String := none
  email : Option String := none
  password : Option String := none
  firstName : Option String := none
  lastName : Option String := none
  phone : Option (Option String) := none
  role : Option String := none
  createdAt : Option Nat := none
deriving Repr, DecidableEq

def mergeUser (u : User) (p : UserPatch) : User :=
  { id := p.id.getD u.id
    email := p.email.getD u.email
    password := p.password.getD u.password
    firstName := p.firstName.getD u.firstName
    lastName := p.lastName.getD u.lastName
    phone := p.phone.getD u.phone
    role := p.role.getD u.role
    createdAt := p.createdAt.getD u.createdAt }

structure ProviderPatch where
  id : Option String := none
  userId : Option String := none
  specialty : Option String := none
  businessName : Option (Option String) := none
  location : Option String := none
  description : Option (Option String) := none
  hourlyRate : Option (Option String) := none
  isApproved : Option Bool := none
  isAvailable : Option Bool := none
  serviceRadius : Option (Option String) := none
  rating : Option String := none
  reviewCount : Option Nat := none
  categories : Option (List String) := none
  availability : Option (Option String) := none
  profileImage : Option (Option String) := none
  portfolio : Option (List String) := none
  certifications : Option (List String) := none
  yearsExperience : Option (Option Nat) := none
  createdAt : Option Nat := none
deriving Repr, DecidableEq

def mergeProvider (r : Provider) (p : ProviderPatch) : Provider :=
  { id := p.id.getD r.id
    userId := p.userId.getD r.userId
    specialty := p.specialty.getD r.specialty
    businessName := p.businessName.getD r.businessName
    location := p.location.getD r.location
    description := p.description.getD r.description
    hourlyRate := p.hourlyRate.getD r.hourlyRate
    isApproved := p.isApproved.getD r.isApproved
    isAvailable := p.isAvailable.getD r.isAvailable
    serviceRadius := p.serviceRadius.getD r.serviceRadius
    rating := p.rating.getD r.rating
    reviewCount := p.reviewCount.getD r.reviewCount
    categories := p.categories.getD r.categories
    availability := p.availability.getD r.availability
    profileImage := p.profileImage.getD r.profileImage
    portfolio := p.portfolio.getD r.portfolio
    certifications := p.certifications.getD r.certifications
    yearsExperience := p.yearsExperience.getD r.yearsExperience
    createdAt := p.createdAt.getD r.createdAt }

structure BookingPatch where
  id : Option String := none
  customerId : Option String := none
  providerId : Option String := none
  status : Option String := none
  estimatedDuration : Option (Option Nat) := none
  estimatedCost : Option (Option String) := none
  actualCost : Option (Option String) := none
  notes : Option (Option String) := none
  createdAt : Option Nat := none
deriving Repr, DecidableEq

def mergeBooking (b : Booking) (p : BookingPatch) : Booking :=
  { id := p.id.getD b.id
    customerId := p.customerId.getD b.customerId
    providerId := p.providerId.getD b.providerId
    status := p.status.getD b.status
    estimatedDuration := p.estimatedDuration.getD b.estimatedDuration
    estimatedCost := p.estimatedCost.getD b.estimatedCost
    actualCost := p.actualCost.getD b.actualCost
    notes := p.notes.getD b.notes
    createdAt := p.createdAt.getD b.createdAt }

structure ReviewPatch where
  id : Option String := none
  providerId : Option String := none
  customerId : Option String := none
  bookingId : Option String := none
  rating : Option Nat := none
  comment : Option (Option String) := none
  isVisible : Option Bool := none
  createdAt : Option Nat := none
deriving Repr, DecidableEq

def mergeReview (r : Review) (p : ReviewPatch) : Review :=
  { id := p.id.getD r.id
    providerId := p.providerId.getD r.providerId
    customerId := p.customerId.getD r.customerId
    bookingId := p.bookingId.getD r.bookingId
    rating := p.rating.getD r.rating
    comment := p.comment.getD r.comment
    isVisible := p.isVisible.getD r.isVisible
    createdAt := p.createdAt.getD r.createdAt }

/-- Filter object for provider listing
(`{ categoryId?; location?; isApproved? }`). -/
structure ProviderFilters where
  categoryId : Option String := none
  location : Option String := none
  isApproved : Option Bool := none
deriving Repr, DecidableEq

/-- Filter object for booking listing
(`{ customerId?; providerId?; status? }`). -/
structure BookingFilters where
  customerId : Option String := none
  providerId : Option String := none
  status : Option String := none
deriving Repr, DecidableEq

/-! ## MemStorage: the in-process backend.  State is the six `Map`
collections plus the identifier counter; every operation is a pure
state-passing function translated line by line from
`src/server/storage.ts`. -/

structure MemState where
  users : JsMap User
  serviceCategories : JsMap ServiceCategory
  providers : JsMap Provider
  providerCategories : JsMap ProviderCategory
  bookings : JsMap Booking
  reviews : JsMap Review
  uuidCounter : Nat
deriving Repr, DecidableEq

def MemState.emptyState : MemState :=
  { users := JsMap.emptyMap
    serviceCategories := JsMap.emptyMap
    providers := JsMap.emptyMap
    providerCategories := JsMap.emptyMap
    bookings := JsMap.emptyMap
    reviews := JsMap.emptyMap
    uuidCounter := 0 }

namespace MemStorage

def getUser (st : MemState) (id : String) : Option User :=
  st.users.get id

def getUserByEmail (st : MemState) (email : String) : Option User :=
  st.users.values.find? (fun user => user.email == email)

def getAllUsers (st : MemState) : List User :=
  st.users.values

def createUser (st : MemState) (insertUser : InsertUser) : User × MemState :=
  let id := genId st.uuidCounter
  let user : User :=
    { id := id
      email := insertUser.email
      password := insertUser.password
      firstName := insertUser.firstName
      lastName := insertUser.lastName
      createdAt := st.uuidCounter
      phone := insertUser.phone
      role := insertUser.role.getD "customer" }
  (user, { st with users := st.users.set id user, uuidCounter := st.uuidCounter + 1 })

def updateUser (st : MemState) (id : String) (updates : UserPatch) :
    Option User × MemState :=
  match st.users.get id with
  | none => (none, st)
  | some user =>
    let updatedUser := mergeUser user updates
    (some updatedUser, { st with users := st.users.set id updatedUser })

def getServiceCategories (st : MemState) : List ServiceCategory :=
  st.serviceCategories.values

def createServiceCategory (st : MemState) (category : InsertServiceCategory) :
    ServiceCategory × MemState :=
  let id := genId st.uuidCounter
  let serviceCategory : ServiceCategory :=
    { id := id
      name := category.name
      icon := category.icon
      color := category.color
      description := category.description }
  (serviceCategory,
    { st with
      serviceCategories := st.serviceCategories.set id serviceCategory
      uuidCounter := st.uuidCounter + 1 })

def getProvider (st : MemState) (id : String) : Option Provider :=
  st.providers.get id

def getProviderByUserId (st : MemState) (userId : String) : Option Provider :=
  st.providers.values.find? (fun provider => provider.userId == userId)

/-- The read-time join of `MemStorage.getProviders`: every stored
provider, augmented with the summary of its linked user (`null` when
`users.get(provider.userId)` is absent). -/
def attachUsers (st : MemState) : List ProviderWithUser :=
  st.providers.values.map (fun provider =>
    { toProvider := provider
      user := (st.users.get provider.userId).map mkUserSummary })

/-- `MemStorage.getProviders`: the read-time user join followed by the
three guarded filters, applied in source order (`isApproved` presence
check, then truthy `location` with a lowercased `includes` test, then
truthy `categoryId` with a membership test). -/
def getProviders (st : MemState) (filters : ProviderFilters) :
    List ProviderWithUser :=
  truthyFilter filters.categoryId (fun p c => p.categories.contains c)
    (truthyFilter filters.location
      (fun p l => strIncludes p.location.toLower l.toLower)
      (optFilter filters.isApproved (fun p b => p.isApproved == b)
        (attachUsers st)))

def createProvider (st : MemState) (provider : InsertProvider) :
    Provider × MemState :=
  let id := genId st.uuidCounter
  let newProvider : Provider :=
    { id := id
      createdAt := st.uuidCounter
      userId := provider.userId
      specialty := provider.specialty
      location := provider.location.getD ""
      description := provider.description
      isApproved := provider.isApproved.getD false
      isAvailable := provider.isAvailable.getD true
      businessName := provider.businessName
      serviceRadius := provider.serviceRadius
      hourlyRate := provider.hourlyRate
      rating := provider.rating.getD "0"
      reviewCount := provider.reviewCount.getD 0
      categories := provider.categories.getD []
      availability := provider.availability
      profileImage := provider.profileImage
      portfolio := provider.portfolio.getD []
      certifications := provider.certifications.getD []
      yearsExperience := provider.yearsExperience }
  (newProvider,
    { st with
      providers := st.providers.set id newProvider
      uuidCounter := st.uuidCounter + 1 })

def updateProvider (st : MemState) (id : String) (updates : ProviderPatch) :
    Option Provider × MemState :=
  match st.providers.get id with
  | none => (none, st)
  | some provider =>
    let updatedProvider := mergeProvider provider updates
    (some updatedProvider, { st with providers := st.providers.set id updatedProvider })

def getProviderCategories (st : MemState) (providerId : String) :
    List ProviderCategory :=
  st.providerCategories.values.filter (fun pc => pc.providerId == providerId)

def getBooking (st : MemState) (id : String) : Option Booking :=
  st.bookings.get id

/-- `MemStorage.getBookings`: three truthiness-guarded exact-match
filters applied in source order (`customerId`, `providerId`,
`status`). -/
def getBookings (st : MemState) (filters : BookingFilters) : List Booking :=
  truthyFilter filters.status (fun b s => b.status == s)
    (truthyFilter filters.providerId (fun b p => b.providerId == p)
      (truthyFilter filters.customerId (fun b c => b.customerId == c)
        st.bookings.values))

def createBooking (st : MemState) (booking : InsertBooking) :
    Booking × MemState :=
  let id := genId st.uuidCounter
  let newBooking : Booking :=
    { id := id
      createdAt := st.uuidCounter
      customerId := booking.customerId
      providerId := booking.providerId
      status := booking.status.getD "pending"
      estimatedDuration := booking.estimatedDuration
      estimatedCost := booking.estimatedCost
      actualCost := booking.actualCost
      notes := booking.notes }
  (newBooking,
    { st with
      bookings := st.bookings.set id newBooking
      uuidCounter := st.uuidCounter + 1 })

def updateBooking (st : MemState) (id : String) (updates : BookingPatch) :
    Option Booking × MemState :=
  match st.bookings.get id with
  | none => (none, st)
  | some booking =>
    let updatedBooking := mergeBooking booking updates
    (some updatedBooking, { st with bookings := st.bookings.set id updatedBooking })

def getReviews (st : MemState) (providerId : String) : List Review :=
  st.reviews.values.filter (fun r => r.providerId == providerId && r.isVisible)

def createReview (st : MemState) (review : InsertReview) : Review × MemState :=
  let id := genId st.uuidCounter
  let newReview : Review :=
    { id := id
      createdAt := st.uuidCounter
      providerId := review.providerId
      customerId := review.customerId
      bookingId := review.bookingId
      rating := review.rating
      comment := review.comment
      isVisible := review.isVisible.getD true }
  (newReview,
    { st with
      reviews := st.reviews.set id newReview
      uuidCounter := st.uuidCounter + 1 })

def updateReview (st : MemState) (id : String) (updates : ReviewPatch) :
    Option Review × MemState :=
  match st.reviews.get id with
  | none => (none, st)
  | some review =>
    let updatedReview := mergeReview review updates
    (some updatedReview, { st with reviews := st.reviews.set id updatedReview })

def deleteReview (st : MemState) (id : String) : Bool × MemState :=
  (st.reviews.hasKey id, { st with reviews := st.reviews.eraseKey id })

end MemStorage

/-! ## DbStorage: the durable backend.  Tables are modelled as ordered
row lists; drizzle queries (`select ... where`, `insert ... returning`,
`update ... set ... where ... returning`, `delete ... where ...
returning`) are translated to filters/maps over those lists with SQL
predicate semantics (`eq` is equality, `like` is the case-sensitive SQL
`LIKE`).  Identifier generation and column defaults live in
`@shared/schema`, which is not under `src/`; they are modelled from the
spec where noted. -/

structure DbState where
  users : List User
  serviceCategories : List ServiceCategory
  providers : List Provider
  providerCategories : List ProviderCategory
  bookings : List Booking
  reviews : List Review
  idCounter : Nat
deriving Repr, DecidableEq

def DbState.emptyState : DbState :=
  { users := []
    serviceCategories := []
    providers := []
    providerCategories := []
    bookings := []
    reviews := []
    idCounter := 0 }

namespace DbStorage

def getUser (st : DbState) (id : String) : Option User :=
  (st.users.filter (fun r => r.id == id)).head?

def getUserByEmail (st : DbState) (email : String) : Option User :=
  (st.users.filter (fun r => r.email == email)).head?

def getAllUsers (st : DbState) : List User :=
  st.users

/-- Modelled from the spec: the `users` table definition in
`@shared/schema` is not under `src/`, so the row materialized by
`db.insert(users).values(user).returning()` (generated identifier,
`role` column default "customer", creation timestamp) follows the
spec's data-model table. -/
def createUser (st : DbState) (user : InsertUser) : User × DbState :=
  let id := genId st.idCounter
  let row : User :=
    { id := id
      email := user.email
      password := user.password
      firstName := user.firstName
      lastName := user.lastName
      phone := user.phone
      role := user.role.getD "customer"
      createdAt := st.idCounter }
  (row, { st with users := st.users ++ [row], idCounter := st.idCounter + 1 })

def updateUser (st : DbState) (id : String) (updates : UserPatch) :
    Option User × DbState :=
  let newRows := st.users.map (fun r => if r.id == id then mergeUser r updates else r)
  let returned := (st.users.filter (fun r => r.id == id)).map (fun r => mergeUser r updates)
  (returned.head?, { st with users := newRows })

def getServiceCategories (st : DbState) : List ServiceCategory :=
  st.serviceCategories

/-- Modelled from the spec: the `serviceCategories` table definition in
`@shared/schema` is not under `src/`; the inserted row carries a
generated identifier and a null default for the optional description. -/
def createServiceCategory (st : DbState) (category : InsertServiceCategory) :
    ServiceCategory × DbState :=
  let id := genId st.idCounter
  let row : ServiceCategory :=
    { id := id
      name := category.name
      description := category.description
      icon := category.icon
      color := category.color }
  (row,
    { st with
      serviceCategories := st.serviceCategories ++ [row]
      idCounter := st.idCounter + 1 })

def getProvider (st : DbState) (id : String) : Option Provider :=
  (st.providers.filter (fun r => r.id == id)).head?

/-- `DbStorage.getProviders`: the `conditions` array becomes one
conjunctive SQL predicate (`where(and(...))`) over the `providers`
table — note `like` is the case-sensitive SQL `LIKE` with the filter
value spliced between `%` wildcards — and the truthy `categoryId`
membership test is applied as a post-fetch filter.  No user join is
performed. -/
def getProviders (st : DbState) (filters : ProviderFilters) : List Provider :=
  truthyFilter filters.categoryId (fun p c => p.categories.contains c)
    (st.providers.filter (fun p =>
      (match filters.isApproved with
       | some b => p.isApproved == b
       | none => true) &&
      (if truthyStr filters.location then
         sqlLike ("%" ++ filters.location.getD "" ++ "%") p.location
       else true)))

/-- Modelled from the spec: the `providers` table definition in
`@shared/schema` is not under `src/`; the inserted row applies the
spec's data-model column defaults (`rating` "0", `reviewCount` 0,
approval off, availability on, empty collections, null optionals). -/
def createProvider (st : DbState) (provider : InsertProvider) :
    Provider × DbState :=
  let id := genId st.idCounter
  let row : Provider :=
    { id := id
      createdAt := st.idCounter
      userId := provider.userId
      specialty := provider.specialty
      location := provider.location.getD ""
      description := provider.description
      isApproved := provider.isApproved.getD false
      isAvailable := provider.isAvailable.getD true
      businessName := provider.businessName
      serviceRadius := provider.serviceRadius
      hourlyRate := provider.hourlyRate
      rating := provider.rating.getD "0"
      reviewCount := provider.reviewCount.getD 0
      categories := provider.categories.getD []
      availability := provider.availability
      profileImage := provider.profileImage
      portfolio := provider.portfolio.getD []
      certifications := provider.certifications.getD []
      yearsExperience := provider.yearsExperience }
  (row, { st with providers := st.providers ++ [row], idCounter := st.idCounter + 1 })

def updateProvider (st : DbState) (id : String) (updates : ProviderPatch) :
    Option Provider × DbState :=
  let newRows := st.providers.map (fun r => if r.id == id then mergeProvider r updates else r)
  let returned := (st.providers.filter (fun r => r.id == id)).map (fun r => mergeProvider r updates)
  (returned.head?, { st with providers := newRows })

def getBooking (st : DbState) (id : String) : Option Booking :=
  (st.bookings.filter (fun r => r.id == id)).head?

def updateBooking (st : DbState) (id : String) (updates : BookingPatch) :
    Option Booking × DbState :=
  let newRows := st.bookings.map (fun r => if r.id == id then mergeBooking r updates else r)
  let returned := (st.bookings.filter (fun r => r.id == id)).map (fun r => mergeBooking r updates)
  (returned.head?, { st with bookings := newRows })

/-- `DbStorage.getReviews`: `select from reviews where providerId = ?`.
Note the query has no visibility predicate. -/
def getReviews (st : DbState) (providerId : String) : List Review :=
  st.reviews.filter (fun r => r.providerId == providerId)

def updateReview (st : DbState) (id : String) (updates : ReviewPatch) :
    Option Review × DbState :=
  let newRows := st.reviews.map (fun r => if r.id == id then mergeReview r updates else r)
  let returned := (st.reviews.filter (fun r => r.id == id)).map (fun r => mergeReview r updates)
  (returned.head?, { st with reviews := newRows })

def deleteReview (st : DbState) (id : String) : Bool × DbState :=
  let deleted := st.reviews.filter (fun r => r.id == id)
  (decide (deleted.length > 0),
    { st with reviews := st.reviews.filter (fun r => !(r.id == id)) })

end DbStorage

/-! ## Seed Initializer (`initializeSeedData`).  Passwords are produced
by `bcrypt.hash`, an external primitive; the hash function is a
parameter of the seed routines (no verified property depends on it). -/

/-- The fixed list of eight service categories seeded by both backends. -/
def seedCategories : List InsertServiceCategory :=
  [ { name := "Electrical", description := some "Wiring, repairs, installations",
      icon := "zap", color := "blue" },
    { name := "Plumbing", description := some "Pipes, fixtures, emergency repairs",
      icon := "wrench", color := "green" },
    { name := "Carpentry", description := some "Custom work, repairs, installations",
      icon := "hammer", color := "amber" },
    { name := "HVAC", description := some "Heating, cooling, ventilation",
      icon := "thermometer", color := "purple" },
    { name := "General Contracting", description := some "Home improvements, renovations",
      icon := "building", color := "red" },
    { name := "Landscaping", description := some "Garden design, lawn care",
      icon := "leaf", color := "teal" },
    { name := "Painting", description := some "Interior, exterior, touch-ups",
      icon := "paintbrush", color := "orange" },
    { name := "Cleaning Services", description := some "House cleaning, deep cleaning",
      icon := "spray", color := "gray" } ]

/-- One entry of the hard-coded `sampleProviders` arrays. -/
structure SampleProviderData where
  email : String
  password : String
  firstName : String
  lastName : String
  role : String
  specialty : String
  location : String
  description : String
  hourlyRate : String
  isApproved : Bool
  rating : String
  reviewCount : Nat
  categories : List String
deriving Repr, DecidableEq

/-- The `sampleProviders` array of `MemStorage.initializeSeedData`. -/
def memSampleProviders (hash : String → String)
    (electricalCat plumbingCat carpentryCat : Option ServiceCategory) :
    List SampleProviderData :=
  [ { email := "mike@example.com"
      password := hash "password123"
      firstName := "Mike"
      lastName := "Thompson"
      role := "provider"
      specialty := "Licensed Electrician"
      location := "Downtown Area"
      description := "15+ years experience in residential and commercial electrical work. Available for emergency calls."
      hourlyRate := "85.00"
      isApproved := true
      rating := "4.9"
      reviewCount := 127
      categories := match electricalCat with | some c => [c.id] | none => [] },
    { email := "sarah@example.com"
      password := hash "password123"
      firstName := "Sarah"
      lastName := "Martinez"
      role := "provider"
      specialty := "Master Plumber"
      location := "North Side"
      description := "Specializing in emergency repairs, fixture installations, and water heater services. Fast response time."
      hourlyRate := "95.00"
      isApproved := true
      rating := "4.8"
      reviewCount := 94
      categories := match plumbingCat with | some c => [c.id] | none => [] },
    { email := "david@example.com"
      password := hash "password123"
      firstName := "David"
      lastName := "Chen"
      role := "provider"
      specialty := "Custom Carpenter"
      location := "West End"
      description := "Custom furniture, cabinetry, and home improvements. Meticulous attention to detail and craftsmanship."
      hourlyRate := "75.00"
      isApproved := true
      rating := "5.0"
      reviewCount := 73
      categories := match carpentryCat with | some c => [c.id] | none => [] } ]

/-- The `sampleProviders` array of `DbStorage.initializeSeedData`
(its Sarah and David entries differ from the in-memory ones). -/
def dbSampleProviders (hash : String → String)
    (electricalCat plumbingCat carpentryCat : Option ServiceCategory) :
    List SampleProviderData :=
  [ { email := "mike@example.com"
      password := hash "password123"
      firstName := "Mike"
      lastName := "Thompson"
      role := "provider"
      specialty := "Licensed Electrician"
      location := "Downtown Area"
      description := "15+ years experience in residential and commercial electrical work. Available for emergency calls."
      hourlyRate := "85.00"
      isApproved := true
      rating := "4.9"
      reviewCount := 127
      categories := match electricalCat with | some c => [c.id] | none => [] },
    { email := "sarah@example.com"
      password := hash "password123"
      firstName := "Sarah"
      lastName := "Martinez"
      role := "provider"
      specialty := "Master Plumber"
      location := "North Side"
      description := "Specializing in emergency repairs, fixture installations, and water heater services. Fast response time."
      hourlyRate := "95.00"
      isApproved := true
      rating := "4.8"
      reviewCount := 93
      categories := match plumbingCat with | some c => [c.id] | none => [] },
    { email := "david@example.com"
      password := hash "password123"
      firstName := "David"
      lastName := "Chen"
      role := "provider"
      specialty := "Master Carpenter"
      location := "West End"
      description := "Custom furniture, deck building, and general carpentry. Quality craftsmanship guaranteed."
      hourlyRate := "75.00"
      isApproved := true
      rating := "5.0"
      reviewCount := 45
      categories := match carpentryCat with | some c => [c.id] | none => [] } ]

/-- `MemStorage.initializeSeedData`: seeds categories, the admin user
and the three sample providers.  The provider-creation call passes only
the `InsertProvider` fields (the source omits `rating` and
`reviewCount`, per its RETAIN comment) and — unlike the durable
backend — performs no follow-up update. -/
def MemStorage.initSeedData (hash : String → String) (st : MemState) : MemState :=
  let st := seedCategories.foldl
    (fun s cat => (MemStorage.createServiceCategory s cat).2) st
  let st := (MemStorage.createUser st
    { email := "admin@localfix.com"
      password := hash "admin123"
      firstName := "Admin"
      lastName := "User"
      role := some "admin" }).2
  let electricalCat := st.serviceCategories.values.find? (fun c => c.name == "Electrical")
  let plumbingCat := st.serviceCategories.values.find? (fun c => c.name == "Plumbing")
  let carpentryCat := st.serviceCategories.values.find? (fun c => c.name == "Carpentry")
  let sampleProviders := memSampleProviders hash electricalCat plumbingCat carpentryCat
  sampleProviders.foldl
    (fun s providerData =>
      let created := MemStorage.createUser s
        { email := providerData.email
          password := providerData.password
          firstName := providerData.firstName
          lastName := providerData.lastName
          role := some providerData.role }
      (MemStorage.createProvider created.2
        { userId := created.1.id
          specialty := providerData.specialty
          location := some providerData.location
          description := some providerData.description
          hourlyRate := some providerData.hourlyRate
          isApproved := some providerData.isApproved
          categories := some providerData.categories }).2)
    st

/-- A fresh `MemStorage` instance: the constructor immediately and
unconditionally runs the seed routine on empty collections. -/
def MemStorage.newStore (hash : String → String) : MemState :=
  MemStorage.initSeedData hash MemState.emptyState

/-- `DbStorage.initializeSeedData`: a no-op when service-category rows
already exist; otherwise seeds categories, the admin user and the three
sample providers, applying each sample rating and review count through
a follow-up `updateProvider` call. -/
def DbStorage.initSeedData (hash : String → String) (st : DbState) : DbState :=
  if st.serviceCategories.length > 0 then st
  else
    let st := seedCategories.foldl
      (fun s cat => (DbStorage.createServiceCategory s cat).2) st
    let st := (DbStorage.createUser st
      { email := "admin@localfix.com"
        password := hash "admin123"
        firstName := "Admin"
        lastName := "User"
        role := some "admin" }).2
    let allCategories := st.serviceCategories
    let electricalCat := allCategories.find? (fun c => c.name == "Electrical")
    let plumbingCat := allCategories.find? (fun c => c.name == "Plumbing")
    let carpentryCat := allCategories.find? (fun c => c.name == "Carpentry")
    let sampleProviders := dbSampleProviders hash electricalCat plumbingCat carpentryCat
    sampleProviders.foldl
      (fun s providerData =>
        let createdUser := DbStorage.createUser s
          { email := providerData.email
            password := providerData.password
            firstName := providerData.firstName
            lastName := providerData.lastName
            role := some providerData.role }
        let createdProvider := DbStorage.createProvider createdUser.2
          { userId := createdUser.1.id
            businessName := some (providerData.firstName ++ "\x27s " ++ providerData.specialty)
            specialty := providerData.specialty
            description := some providerData.description
            location := some providerData.location
            hourlyRate := some providerData.hourlyRate
            isApproved := some providerData.isApproved
            categories := some providerData.categories }
        (DbStorage.updateProvider createdProvider.2 createdProvider.1.id
          { rating := some providerData.rating
            reviewCount := some providerData.reviewCount }).2)
      st

/-! ## Spec-side filter predicates.  These follow the specification's
words ("filters compose with AND; `isApproved` exact match, `location`
substring match, `categoryId` membership test"), folding in the
code's treatment of an empty-string filter value as absent, so that the
listing operations can be compared against a single conjunctive
predicate. -/

/-- Conjunctive provider-filter predicate for the in-memory backend:
exact approval match, case-insensitive substring location match,
category membership; a string filter equal to `""` restricts nothing. -/
def specProviderPredMem (filters : ProviderFilters) (p : ProviderWithUser) : Bool :=
  (match filters.isApproved with
   | some b => p.isApproved == b
   | none => true) &&
  (match filters.location with
   | some l => l == "" || strIncludes p.location.toLower l.toLower
   | none => true) &&
  (match filters.categoryId with
   | some c => c == "" || p.categories.contains c
   | none => true)

/-- Conjunctive provider-filter predicate for the durable backend:
exact approval match, case-sensitive SQL `LIKE` location match against
`%value%`, category membership; a string filter equal to `""` restricts
nothing. -/
def specProviderPredDb (filters : ProviderFilters) (p : Provider) : Bool :=
  (match filters.isApproved with
   | some b => p.isApproved == b
   | none => true) &&
  (match filters.location with
   | some l => l == "" || sqlLike ("%" ++ l ++ "%") p.location
   | none => true) &&
  (match filters.categoryId with
   | some c => c == "" || p.categories.contains c
   | none => true)

/-! ## Concrete fixtures used by counterexamples and witnesses. -/

def c1HiddenReview : Review :=
  { id := "r1", providerId := "p1", customerId := "c1", bookingId := "b1",
    rating := 2, comment := none, isVisible := false, createdAt := 0 }

def c1DbFixture : DbState :=
  { DbState.emptyState with reviews := [c1HiddenReview] }

def c1MemFixture : MemState :=
  { MemState.emptyState with reviews := ⟨[("r1", c1HiddenReview)]⟩ }

def c2NorthProvider : Provider :=
  { id := "p1", userId := "u1", specialty := "Master Plumber",
    businessName := none, location := "North Side", description := none,
    hourlyRate := none, isApproved := true, isAvailable := true,
    serviceRadius := none, rating := "0", reviewCount := 0,
    categories := ["cat1"], availability := none, profileImage := none,
    portfolio := [], certifications := [], yearsExperience := none,
    createdAt := 0 }

def c2DbFixture : DbState :=
  { DbState.emptyState with providers := [c2NorthProvider] }

def c2MemFixture : MemState :=
  { MemState.emptyState with providers := ⟨[("p1", c2NorthProvider)]⟩ }

def c3UserA : User :=
  { id := "u1", email := "alice@example.com", password := "pw",
    firstName := "Alice", lastName := "Smith", phone := none,
    role := "provider", createdAt := 0 }

def c3UserB : User :=
  { c3UserA with email := "bob@example.com" }

def c3Provider : Provider :=
  { id := "p1", userId := "u1", specialty := "Electrician",
    businessName := none, location := "Downtown", description := none,
    hourlyRate := none, isApproved := true, isAvailable := true,
    serviceRadius := none, rating := "0", reviewCount := 0,
    categories := [], availability := none, profileImage := none,
    portfolio := [], certifications := [], yearsExperience := none,
    createdAt := 0 }

def c3DbFixtureA : DbState :=
  { DbState.emptyState with users := [c3UserA], providers := [c3Provider] }

def c3DbFixtureB : DbState :=
  { DbState.emptyState with users := [c3UserB], providers := [c3Provider] }

def c3MemFixture : MemState :=
  { MemState.emptyState with
    users := ⟨[("u1", c3UserA)]⟩
    providers := ⟨[("p1", c3Provider)]⟩ }

def c3Augmented : ProviderWithUser :=
  { toProvider := c3Provider, user := some (mkUserSummary c3UserA) }

def c5Input : InsertProvider :=
  { userId := "u1", specialty := "Electrician" }

def c6Category : ServiceCategory :=
  { id := "cat1", name := "Electrical", description := none,
    icon := "zap", color := "blue" }

def c6NonEmptyDb : DbState :=
  { DbState.emptyState with serviceCategories := [c6Category] }

def c10User : User :=
  { id := "x", email := "old@example.com", password := "pw",
    firstName := "Old", lastName := "Name", phone := none,
    role := "customer", createdAt := 0 }

def c10Provider : Provider :=
  { id := "x", userId := "u1", specialty := "Plumber",
    businessName := none, location := "East", description := none,
    hourlyRate := none, isApproved := false, isAvailable := true,
    serviceRadius := none, rating := "0", reviewCount := 0,
    categories := [], availability := none, profileImage := none,
    portfolio := [], certifications := [], yearsExperience := none,
    createdAt := 0 }

def c10Booking : Booking :=
  { id := "x", customerId := "c1", providerId := "p1",
    status := "pending", estimatedDuration := none, estimatedCost := none,
    actualCost := none, notes := none, createdAt := 0 }

def c10Review : Review :=
  { id := "x", providerId := "p1", customerId := "c1", bookingId := "b1",
    rating := 5, comment := none, isVisible := true, createdAt := 0 }

def c10OtherUser : User :=
  { c10User with id := "y", email := "other@example.com" }

def c10MemFixture : MemState :=
  { MemState.emptyState with
    users := ⟨[("x", c10User), ("y", c10OtherUser)]⟩
    providers := ⟨[("x", c10Provider)]⟩
    bookings := ⟨[("x", c10Booking)]⟩
    reviews := ⟨[("x", c10Review)]⟩ }

def c10UserPatch : UserPatch :=
  { id := some "z", email := some "new@example.com" }

def c10ProviderPatch : ProviderPatch :=
  { id := some "z", rating := some "4.5" }

def c10BookingPatch : BookingPatch :=
  { id := some "z", status := some "confirmed" }

def c10ReviewPatch : ReviewPatch :=
  { id := some "z", isVisible := some false }

/-! ## Helper lemmas (shared support for the claim theorems). -/

theorem filterComp {α : Type} (p q : α → Bool) :
    ∀ (l : List α), (l.filter p).filter q = l.filter (fun x => p x && q x)
  | [] => rfl
  | x :: xs => by
    cases hp : p x <;> cases hq : q x <;>
      simp [List.filter_cons, hp, hq, filterComp p q xs]

theorem optFilterEq {α β : Type} (o : Option β) (q : α → β → Bool) (l : List α) :
    optFilter o q l
      = l.filter (fun x => match o with | some b => q x b | none => true) := by
  cases o with
  | none => simp [optFilter]
  | some b => rfl

theorem truthyFilterEq {α : Type} (o : Option String) (q : α → String → Bool)
    (l : List α) :
    truthyFilter o q l
      = l.filter (fun x => match o with | some s => s == "" || q x s | none => true) := by
  cases o with
  | none => simp [truthyFilter, truthyStr]
  | some s =>
    cases hs : s == "" with
    | true => simp [truthyFilter, truthyStr, hs]
    | false => simp [truthyFilter, truthyStr, hs]

theorem truthyStrGuard (o : Option String) (b : String → Bool) :
    (if truthyStr o then b (o.getD "") else true)
      = (match o with | some s => s == "" || b s | none => true) := by
  cases o with
  | none => simp [truthyStr]
  | some s =>
    cases hs : s == "" with
    | true => simp [truthyStr, hs]
    | false => simp [truthyStr, hs]

theorem findIsSomeAny {α : Type} (p : α → Bool) :
    ∀ (l : List α), (l.find? p).isSome = l.any p
  | [] => rfl
  | x :: xs => by
    cases hp : p x <;> simp [List.find?_cons, List.any_cons, hp, findIsSomeAny p xs]

theorem anyFilterNot {α : Type} (p : α → Bool) :
    ∀ (l : List α), (l.filter (fun x => !(p x))).any p = false
  | [] => rfl
  | x :: xs => by
    cases hp : p x <;> simp [List.filter_cons, hp, anyFilterNot p xs]

theorem filterLengthPosFind {α : Type} (p : α → Bool) :
    ∀ (l : List α), decide (0 < (l.filter p).length) = (l.find? p).isSome
  | [] => rfl
  | x :: xs => by
    cases hp : p x <;>
      simp [List.filter_cons, List.find?_cons, hp, filterLengthPosFind p xs]

theorem filterNotThenFilter {α : Type} (p : α → Bool) :
    ∀ (l : List α), (l.filter (fun x => !(p x))).filter p = []
  | [] => rfl
  | x :: xs => by
    cases hp : p x <;> simp [List.filter_cons, hp, filterNotThenFilter p xs]

theorem mapIfNoMatch {α : Type} (p : α → Bool) (f : α → α) :
    ∀ (l : List α), l.filter p = [] →
      l.map (fun x => if p x then f x else x) = l
  | [], _ => rfl
  | x :: xs, h => by
    cases hp : p x with
    | true => simp [List.filter_cons, hp] at h
    | false =>
      simp only [List.filter_cons, hp, Bool.false_eq_true, if_false] at h
      simp [hp, mapIfNoMatch p f xs h]

theorem findMapReplace {α : Type} (k : String) (v : α) :
    ∀ (l : List (String × α)),
      (l.map (fun e => if e.1 == k then (k, v) else e)).find? (fun e => e.1 == k)
        = (l.find? (fun e => e.1 == k)).map (fun _ => (k, v))
  | [] => rfl
  | e :: es => by
    cases he : e.1 == k with
    | true =>
      have heq : e.1 = k := eq_of_beq he
      simp [List.find?_cons, heq]
    | false =>
      have hne : ¬ e.1 = k := by
        intro hh
        rw [hh] at he
        simp at he
      rw [List.map_cons]
      rw [List.find?_cons, List.find?_cons]
      have h1 : ((if e.1 == k then (k, v) else e).1 == k) = false := by
        simp [he, hne]
      rw [h1, he]
      exact findMapReplace k v es

theorem findMapReplaceNe {α : Type} (k kOther : String) (v : α)
    (hne : (k == kOther) = false) :
    ∀ (l : List (String × α)),
      (l.map (fun e => if e.1 == k then (k, v) else e)).find? (fun e => e.1 == kOther)
        = l.find? (fun e => e.1 == kOther)
  | [] => rfl
  | e :: es => by
    cases he : e.1 == k with
    | true =>
      have h2 : (e.1 == kOther) = false := by rw [eq_of_beq he]; exact hne
      rw [List.map_cons, List.find?_cons, List.find?_cons, he]
      have h3 : ((if true = true then (k, v) else e).1 == kOther) = false := hne
      rw [h3, h2]
      exact findMapReplaceNe k kOther v hne es
    | false =>
      rw [List.map_cons, List.find?_cons, List.find?_cons, he]
      have h3 : ((if false = true then (k, v) else e).1 == kOther)
          = (e.1 == kOther) := rfl
      rw [h3]
      cases h2 : e.1 == kOther with
      | true => rfl
      | false => exact findMapReplaceNe k kOther v hne es

theorem findAppendOne {α : Type} (p : α → Bool) (v : α) :
    ∀ (l : List α), (l ++ [v]).find? p
      = match l.find? p with
        | some x => some x
        | none => if p v then some v else none
  | [] => by
    rw [List.nil_append, List.find?_cons]
    cases hv : p v <;> simp [hv, List.find?_nil]
  | x :: xs => by
    rw [List.cons_append, List.find?_cons, List.find?_cons]
    cases hx : p x with
    | true => rfl
    | false => exact findAppendOne p v xs

theorem JsMap.getSetSelf {α : Type} (m : JsMap α) (k : String) (v : α) :
    (m.set k v).get k = some v := by
  unfold JsMap.set JsMap.get JsMap.hasKey
  cases hk : m.entries.any (fun e => e.1 == k) with
  | true =>
    simp only [hk, if_true, findMapReplace]
    have hsome : (m.entries.find? (fun e => e.1 == k)).isSome = true := by
      rw [findIsSomeAny]; exact hk
    cases hfind : m.entries.find? (fun e => e.1 == k) with
    | none => rw [hfind] at hsome; simp at hsome
    | some e => simp
  | false =>
    simp only [hk, Bool.false_eq_true, if_false, findAppendOne]
    have hnone : (m.entries.find? (fun e => e.1 == k)).isSome = false := by
      rw [findIsSomeAny]; exact hk
    cases hfind : m.entries.find? (fun e => e.1 == k) with
    | none => simp
    | some e => rw [hfind] at hnone; simp at hnone

theorem JsMap.getSetNe {α : Type} (m : JsMap α) (k kOther : String) (v : α)
    (h : kOther ≠ k) :
    (m.set k v).get kOther = m.get kOther := by
  have hne : (k == kOther) = false :=
    beq_eq_false_iff_ne.mpr (fun hkk => h hkk.symm)
  unfold JsMap.set JsMap.get JsMap.hasKey
  cases hk : m.entries.any (fun e => e.1 == k) with
  | true =>
    simp only [hk, if_true, findMapReplaceNe k kOther v hne]
  | false =>
    simp only [hk, Bool.false_eq_true, if_false, findAppendOne]
    cases hfind : m.entries.find? (fun e => e.1 == kOther) with
    | none => simp [hne]
    | some e => simp

theorem JsMap.hasKeyIsSomeGet {α : Type} (m : JsMap α) (k : String) :
    m.hasKey k = (m.get k).isSome := by
  unfold JsMap.hasKey JsMap.get
  rw [← findIsSomeAny]
  cases m.entries.find? (fun e => e.1 == k) <;> rfl

theorem JsMap.hasKeyEraseSelf {α : Type} (m : JsMap α) (k : String) :
    (m.eraseKey k).hasKey k = false := by
  unfold JsMap.eraseKey JsMap.hasKey
  exact anyFilterNot (fun e => e.1 == k) m.entries

theorem memGetProvidersEq (st : MemState) (filters : ProviderFilters) :
    MemStorage.getProviders st filters
      = (MemStorage.attachUsers st).filter (specProviderPredMem filters) := by
  unfold MemStorage.getProviders
  rw [optFilterEq, truthyFilterEq, truthyFilterEq, filterComp, filterComp]
  unfold specProviderPredMem
  apply List.filter_congr
  intro x hx
  cases filters.isApproved <;> cases filters.location <;> cases filters.categoryId <;>
    simp [Bool.and_assoc]

theorem dbGetProvidersEq (st : DbState) (filters : ProviderFilters) :
    DbStorage.getProviders st filters
      = st.providers.filter (specProviderPredDb filters) := by
  unfold DbStorage.getProviders
  rw [truthyFilterEq, filterComp]
  unfold specProviderPredDb
  apply List.filter_congr
  intro p hp
  rw [truthyStrGuard filters.location (fun l => sqlLike ("%" ++ l ++ "%") p.location)]
  cases filters.isApproved <;> cases filters.location <;> cases filters.categoryId <;>
    simp [Bool.and_assoc]

theorem memAttachUserField (st : MemState) (r : ProviderWithUser)
    (h : r ∈ MemStorage.attachUsers st) :
    r.user = (st.users.get r.toProvider.userId).map mkUserSummary := by
  unfold MemStorage.attachUsers at h
  obtain ⟨p, hp, rfl⟩ := List.mem_map.mp h
  rfl

theorem dbSeedNoop (hash : String → String) (st : DbState)
    (h : st.serviceCategories ≠ []) :
    DbStorage.initSeedData hash st = st := by
  unfold DbStorage.initSeedData
  rw [if_pos]
  exact List.length_pos.mpr h

/-! ## Claim theorems. -/

/-- C1: the claim states that for every backend, `getReviews(providerId)`
returns only reviews with matching `providerId` and `isVisible = true`.
This fails on the durable backend: `DbStorage.getReviews` queries only
on `providerId` with no visibility predicate, so a stored review with
`isVisible = false` is returned, while `MemStorage.getReviews` on the
same data correctly filters it out. -/
theorem c1_dbGetReviews_returns_invisible :
    DbStorage.getReviews c1DbFixture "p1" = [c1HiddenReview] ∧
    c1HiddenReview.isVisible = false ∧
    MemStorage.getReviews c1MemFixture "p1" = [] :=
  ⟨rfl, rfl, rfl⟩

/-- C2 counterexample: the claim's case-insensitive location semantics
fail on the durable backend.  The stored provider's location
"North Side" contains "north" case-insensitively, yet
`DbStorage.getProviders` with location filter "north" returns nothing
(SQL `LIKE` is case-sensitive), while `MemStorage.getProviders` returns
the provider. -/
theorem c2_counterexample :
    strIncludes c2NorthProvider.location.toLower ("north".toLower) = true ∧
    c2DbFixture.providers = [c2NorthProvider] ∧
    DbStorage.getProviders c2DbFixture { location := some "north" } = [] ∧
    MemStorage.getProviders c2MemFixture { location := some "north" }
      = [⟨c2NorthProvider, none⟩] :=
  ⟨by with_unfolding_all rfl, rfl, by with_unfolding_all rfl,
   by with_unfolding_all rfl⟩

/-- C2 (amended): for every state and filter object, each backend's
`getProviders` returns exactly the records satisfying the conjunction
of all supplied filters — `isApproved` an exact match, `categoryId` a
membership test, and an empty-string filter restricting nothing — where
the location test is a case-insensitive substring match for the
in-memory backend but a case-sensitive SQL `LIKE` match for the durable
backend. -/
theorem c2_filters_compose_conjunctively (st : MemState) (dst : DbState)
    (filters : ProviderFilters) :
    MemStorage.getProviders st filters
      = (MemStorage.attachUsers st).filter (specProviderPredMem filters) ∧
    DbStorage.getProviders dst filters
      = dst.providers.filter (specProviderPredDb filters) :=
  ⟨memGetProvidersEq st filters, dbGetProvidersEq dst filters⟩

/-- C3 counterexample: the claim states that every backend's
`getProviders` carries a denormalized summary of the linked user.  The
durable backend performs no such join: its output is identical on two
stores that differ in the linked user's email, so the returned records
cannot carry any user summary. -/
theorem c3_counterexample :
    DbStorage.getProviders c3DbFixtureA {} = DbStorage.getProviders c3DbFixtureB {} ∧
    c3DbFixtureA.users.map User.email ≠ c3DbFixtureB.users.map User.email :=
  ⟨rfl, by decide⟩

/-- C3 (amended): every record returned by `MemStorage.getProviders`
carries the summary (id, firstName, lastName, email) of the user stored
under its `userId`, or `none` when that user is absent; the durable
backend's `getProviders` performs no user join — its output does not
depend on the users table at all. -/
theorem c3_user_summary_join (st : MemState) (filters : ProviderFilters)
    (r : ProviderWithUser) (h : r ∈ MemStorage.getProviders st filters)
    (dst : DbState) (us : List User) :
    r.user = (st.users.get r.toProvider.userId).map mkUserSummary ∧
    DbStorage.getProviders { dst with users := us } filters
      = DbStorage.getProviders dst filters := by
  constructor
  · apply memAttachUserField
    rw [memGetProvidersEq st filters] at h
    exact (List.mem_filter.mp h).1
  · rfl

/-- C3 witness: in a concrete store with one provider linked to one
user, the single listed record is the provider augmented with that
user's summary. -/
theorem c3_witness :
    c3Augmented ∈ MemStorage.getProviders c3MemFixture {} ∧
    c3Augmented.user
      = (c3MemFixture.users.get c3Augmented.toProvider.userId).map mkUserSummary :=
  ⟨by decide,
   (c3_user_summary_join c3MemFixture {} c3Augmented (by decide)
      DbState.emptyState []).1⟩

/-- C4 counterexample: the claim states that both seed routines apply
the sample rating and review count via a follow-up update.  The
in-memory seed routine never does: after `MemStorage` seeding all three
sample providers still carry the creation defaults (rating "0", review
count 0), not the sample values. -/
theorem c4_counterexample :
    ((MemStorage.initSeedData (fun s => s) MemState.emptyState).providers.values.map
        Provider.rating) = ["0", "0", "0"] ∧
    ((MemStorage.initSeedData (fun s => s) MemState.emptyState).providers.values.map
        Provider.reviewCount) = [0, 0, 0] ∧
    ("0" : String) ≠ "4.9" :=
  ⟨rfl, rfl, by decide⟩

set_option maxHeartbeats 4000000 in
/-- C4 (amended): both seed routines create the sample providers
without rating or review count in the creation input; only the durable
backend then applies the sample values through a follow-up
`updateProvider` call, so after seeding the durable store's providers
carry the sample ratings and review counts while the in-memory store's
providers keep the creation defaults. -/
theorem c4_seed_rating_application (hash : String → String) :
    ((DbStorage.initSeedData hash DbState.emptyState).providers.map Provider.rating)
        = ["4.9", "4.8", "5.0"] ∧
    ((DbStorage.initSeedData hash DbState.emptyState).providers.map Provider.reviewCount)
        = [127, 93, 45] ∧
    ((MemStorage.initSeedData hash MemState.emptyState).providers.values.map
        Provider.rating) = ["0", "0", "0"] ∧
    ((MemStorage.initSeedData hash MemState.emptyState).providers.values.map
        Provider.reviewCount) = [0, 0, 0] :=
  ⟨by with_unfolding_all rfl, by with_unfolding_all rfl,
   by with_unfolding_all rfl, by with_unfolding_all rfl⟩

/-- C5: every provider creation input without a rating yields a stored
provider whose `rating` field is the string "0" (a `String`-typed
field, not a number), and the record stored under the fresh identifier
is exactly the returned one. -/
theorem c5_default_rating_string (st : MemState) (ip : InsertProvider)
    (h : ip.rating = none) :
    (MemStorage.createProvider st ip).1.rating = "0" ∧
    ((MemStorage.createProvider st ip).2.providers.get (genId st.uuidCounter))
      = some (MemStorage.createProvider st ip).1 := by
  constructor
  · show ip.rating.getD "0" = "0"
    rw [h]
    rfl
  · exact JsMap.getSetSelf st.providers (genId st.uuidCounter) _

/-- C5 witness: creating a provider from the empty store with a
rating-free input stores and returns rating "0". -/
theorem c5_witness :
    c5Input.rating = none ∧
    (MemStorage.createProvider MemState.emptyState c5Input).1.rating = "0" ∧
    ((MemStorage.createProvider MemState.emptyState c5Input).2.providers.get
        (genId MemState.emptyState.uuidCounter))
      = some (MemStorage.createProvider MemState.emptyState c5Input).1 :=
  ⟨rfl, (c5_default_rating_string MemState.emptyState c5Input rfl).1,
    (c5_default_rating_string MemState.emptyState c5Input rfl).2⟩

/-- C6: the durable backend's seed routine is a no-op whenever
service-category rows already exist, and from the empty store a second
invocation changes nothing, leaving exactly 8 service categories and 4
seeded users (the admin plus the three sample providers). -/
theorem c6_db_seed_idempotent (hash : String → String) (st : DbState)
    (h : st.serviceCategories ≠ []) :
    DbStorage.initSeedData hash st = st ∧
    DbStorage.initSeedData hash (DbStorage.initSeedData hash DbState.emptyState)
      = DbStorage.initSeedData hash DbState.emptyState ∧
    (DbStorage.initSeedData hash DbState.emptyState).serviceCategories.length = 8 ∧
    (DbStorage.initSeedData hash DbState.emptyState).users.length = 4 := by
  have h8 : (DbStorage.initSeedData hash DbState.emptyState).serviceCategories.length
      = 8 := by with_unfolding_all rfl
  refine ⟨dbSeedNoop hash st h, ?_, h8, by with_unfolding_all rfl⟩
  apply dbSeedNoop
  intro hnil
  rw [hnil] at h8
  simp at h8

/-- C6 witness: a store holding one category row is untouched by the
seed routine, and double seeding from empty gives the stated counts. -/
theorem c6_witness :
    c6NonEmptyDb.serviceCategories ≠ [] ∧
    DbStorage.initSeedData (fun s => s) c6NonEmptyDb = c6NonEmptyDb ∧
    DbStorage.initSeedData (fun s => s)
        (DbStorage.initSeedData (fun s => s) DbState.emptyState)
      = DbStorage.initSeedData (fun s => s) DbState.emptyState ∧
    (DbStorage.initSeedData (fun s => s) DbState.emptyState).serviceCategories.length
      = 8 ∧
    (DbStorage.initSeedData (fun s => s) DbState.emptyState).users.length = 4 := by
  have h := c6_db_seed_idempotent (fun s => s) c6NonEmptyDb (by decide)
  exact ⟨by decide, h.1, h.2.1, h.2.2.1, h.2.2.2⟩

/-- C7: on both backends, every update operation applied to an id that
is not in the store returns `none` and leaves the state completely
unchanged — in particular no record is created under that id. -/
theorem c7_update_missing_id (st : MemState) (dst : DbState) (id : String)
    (pu : UserPatch) (pp : ProviderPatch) (pb : BookingPatch) (pr : ReviewPatch)
    (hu : st.users.get id = none) (hp : st.providers.get id = none)
    (hb : st.bookings.get id = none) (hr : st.reviews.get id = none)
    (du : dst.users.filter (fun r => r.id == id) = [])
    (dp : dst.providers.filter (fun r => r.id == id) = [])
    (dbk : dst.bookings.filter (fun r => r.id == id) = [])
    (dr : dst.reviews.filter (fun r => r.id == id) = []) :
    MemStorage.updateUser st id pu = (none, st) ∧
    MemStorage.updateProvider st id pp = (none, st) ∧
    MemStorage.updateBooking st id pb = (none, st) ∧
    MemStorage.updateReview st id pr = (none, st) ∧
    DbStorage.updateUser dst id pu = (none, dst) ∧
    DbStorage.updateProvider dst id pp = (none, dst) ∧
    DbStorage.updateBooking dst id pb = (none, dst) ∧
    DbStorage.updateReview dst id pr = (none, dst) := by
  refine ⟨?_, ?_, ?_, ?_, ?_, ?_, ?_, ?_⟩
  · unfold MemStorage.updateUser
    rw [hu]
  · unfold MemStorage.updateProvider
    rw [hp]
  · unfold MemStorage.updateBooking
    rw [hb]
  · unfold MemStorage.updateReview
    rw [hr]
  · unfold DbStorage.updateUser
    rw [du, mapIfNoMatch (fun r => r.id == id) (fun r => mergeUser r pu) dst.users du]
    rfl
  · unfold DbStorage.updateProvider
    rw [dp, mapIfNoMatch (fun r => r.id == id) (fun r => mergeProvider r pp) dst.providers dp]
    rfl
  · unfold DbStorage.updateBooking
    rw [dbk, mapIfNoMatch (fun r => r.id == id) (fun r => mergeBooking r pb) dst.bookings dbk]
    rfl
  · unfold DbStorage.updateReview
    rw [dr, mapIfNoMatch (fun r => r.id == id) (fun r => mergeReview r pr) dst.reviews dr]
    rfl

/-- C7 witness: updating the id "nope" in empty stores returns `none`
and changes nothing, for all four entity types on both backends. -/
theorem c7_witness :
    MemStorage.updateUser MemState.emptyState "nope" {} = (none, MemState.emptyState) ∧
    MemStorage.updateProvider MemState.emptyState "nope" {} = (none, MemState.emptyState) ∧
    MemStorage.updateBooking MemState.emptyState "nope" {} = (none, MemState.emptyState) ∧
    MemStorage.updateReview MemState.emptyState "nope" {} = (none, MemState.emptyState) ∧
    DbStorage.updateUser DbState.emptyState "nope" {} = (none, DbState.emptyState) ∧
    DbStorage.updateProvider DbState.emptyState "nope" {} = (none, DbState.emptyState) ∧
    DbStorage.updateBooking DbState.emptyState "nope" {} = (none, DbState.emptyState) ∧
    DbStorage.updateReview DbState.emptyState "nope" {} = (none, DbState.emptyState) :=
  c7_update_missing_id MemState.emptyState DbState.emptyState "nope" {} {} {} {}
    rfl rfl rfl rfl rfl rfl rfl rfl

/-- C8: on both backends `deleteReview(id)` reports `true` exactly when
a review with that id existed (and was removed), and deleting the same
id again from the resulting state always reports `false`. -/
theorem c8_deleteReview_semantics (st : MemState) (dst : DbState) (id : String) :
    (MemStorage.deleteReview st id).1 = (st.reviews.get id).isSome ∧
    (MemStorage.deleteReview (MemStorage.deleteReview st id).2 id).1 = false ∧
    (DbStorage.deleteReview dst id).1
      = (dst.reviews.find? (fun r => r.id == id)).isSome ∧
    (DbStorage.deleteReview (DbStorage.deleteReview dst id).2 id).1 = false := by
  refine ⟨?_, ?_, ?_, ?_⟩
  · exact JsMap.hasKeyIsSomeGet st.reviews id
  · exact JsMap.hasKeyEraseSelf st.reviews id
  · exact filterLengthPosFind (fun r => r.id == id) dst.reviews
  · show decide (0 < ((dst.reviews.filter (fun r => !(r.id == id))).filter
        (fun r => r.id == id)).length) = false
    rw [filterNotThenFilter]
    rfl

/-- C9: in the in-memory backend a string filter supplied as the empty
string is treated as absent: `getProviders` with location or categoryId
equal to `""` behaves exactly as with that filter missing, and
`getBookings` with all three filters equal to `""` returns the whole
booking collection. -/
theorem c9_empty_string_filters_ignored (st : MemState) (pf : ProviderFilters)
    (bf : BookingFilters) :
    MemStorage.getProviders st { pf with location := some "" }
      = MemStorage.getProviders st { pf with location := none } ∧
    MemStorage.getProviders st { pf with categoryId := some "" }
      = MemStorage.getProviders st { pf with categoryId := none } ∧
    MemStorage.getBookings st { bf with customerId := some "" }
      = MemStorage.getBookings st { bf with customerId := none } ∧
    MemStorage.getBookings st { bf with providerId := some "" }
      = MemStorage.getBookings st { bf with providerId := none } ∧
    MemStorage.getBookings st { bf with status := some "" }
      = MemStorage.getBookings st { bf with status := none } ∧
    MemStorage.getBookings st
        { customerId := some "", providerId := some "", status := some "" }
      = st.bookings.values :=
  ⟨rfl, rfl, rfl, rfl, rfl, rfl⟩

/-- C10: each in-memory update with an existing id rewrites only the
map entry under that id (every other key's lookup and every other
collection is untouched), stores the merged record under the original
key, and when the partial update itself contains an `id` field the
merged record's `id` follows the patch — so it can differ from its map
key. -/
theorem c10_update_frame (st : MemState) (id : String)
    (u : User) (pu : UserPatch) (hu : st.users.get id = some u)
    (pv : Provider) (pp : ProviderPatch) (hp : st.providers.get id = some pv)
    (bk : Booking) (pb : BookingPatch) (hb : st.bookings.get id = some bk)
    (rv : Review) (pr : ReviewPatch) (hr : st.reviews.get id = some rv) :
    (MemStorage.updateUser st id pu
        = (some (mergeUser u pu),
           { st with users := st.users.set id (mergeUser u pu) })) ∧
    ((MemStorage.updateUser st id pu).2.users.get id = some (mergeUser u pu)) ∧
    (∀ k, k ≠ id →
      (MemStorage.updateUser st id pu).2.users.get k = st.users.get k) ∧
    (∀ j, pu.id = some j → (mergeUser u pu).id = j) ∧
    (MemStorage.updateProvider st id pp
        = (some (mergeProvider pv pp),
           { st with providers := st.providers.set id (mergeProvider pv pp) })) ∧
    ((MemStorage.updateProvider st id pp).2.providers.get id
        = some (mergeProvider pv pp)) ∧
    (∀ k, k ≠ id →
      (MemStorage.updateProvider st id pp).2.providers.get k = st.providers.get k) ∧
    (∀ j, pp.id = some j → (mergeProvider pv pp).id = j) ∧
    (MemStorage.updateBooking st id pb
        = (some (mergeBooking bk pb),
           { st with bookings := st.bookings.set id (mergeBooking bk pb) })) ∧
    ((MemStorage.updateBooking st id pb).2.bookings.get id
        = some (mergeBooking bk pb)) ∧
    (∀ k, k ≠ id →
      (MemStorage.updateBooking st id pb).2.bookings.get k = st.bookings.get k) ∧
    (∀ j, pb.id = some j → (mergeBooking bk pb).id = j) ∧
    (MemStorage.updateReview st id pr
        = (some (mergeReview rv pr),
           { st with reviews := st.reviews.set id (mergeReview rv pr) })) ∧
    ((MemStorage.updateReview st id pr).2.reviews.get id
        = some (mergeReview rv pr)) ∧
    (∀ k, k ≠ id →
      (MemStorage.updateReview st id pr).2.reviews.get k = st.reviews.get k) ∧
    (∀ j, pr.id = some j → (mergeReview rv pr).id = j) := by
  have eu : MemStorage.updateUser st id pu
      = (some (mergeUser u pu),
         { st with users := st.users.set id (mergeUser u pu) }) := by
    unfold MemStorage.updateUser
    rw [hu]
  have ep : MemStorage.updateProvider st id pp
      = (some (mergeProvider pv pp),
         { st with providers := st.providers.set id (mergeProvider pv pp) }) := by
    unfold MemStorage.updateProvider
    rw [hp]
  have eb : MemStorage.updateBooking st id pb
      = (some (mergeBooking bk pb),
         { st with bookings := st.bookings.set id (mergeBooking bk pb) }) := by
    unfold MemStorage.updateBooking
    rw [hb]
  have er : MemStorage.updateReview st id pr
      = (some (mergeReview rv pr),
         { st with reviews := st.reviews.set id (mergeReview rv pr) }) := by
    unfold MemStorage.updateReview
    rw [hr]
  refine ⟨eu, ?_, ?_, ?_, ep, ?_, ?_, ?_, eb, ?_, ?_, ?_, er, ?_, ?_, ?_⟩
  · rw [eu]
    exact JsMap.getSetSelf st.users id (mergeUser u pu)
  · intro k hk
    rw [eu]
    exact JsMap.getSetNe st.users id k (mergeUser u pu) hk
  · intro j hj
    show pu.id.getD u.id = j
    rw [hj]
    rfl
  · rw [ep]
    exact JsMap.getSetSelf st.providers id (mergeProvider pv pp)
  · intro k hk
    rw [ep]
    exact JsMap.getSetNe st.providers id k (mergeProvider pv pp) hk
  · intro j hj
    show pp.id.getD pv.id = j
    rw [hj]
    rfl
  · rw [eb]
    exact JsMap.getSetSelf st.bookings id (mergeBooking bk pb)
  · intro k hk
    rw [eb]
    exact JsMap.getSetNe st.bookings id k (mergeBooking bk pb) hk
  · intro j hj
    show pb.id.getD bk.id = j
    rw [hj]
    rfl
  · rw [er]
    exact JsMap.getSetSelf st.reviews id (mergeReview rv pr)
  · intro k hk
    rw [er]
    exact JsMap.getSetNe st.reviews id k (mergeReview rv pr) hk
  · intro j hj
    show pr.id.getD rv.id = j
    rw [hj]
    rfl

/-- C10 witness: in a concrete store holding records under key "x" (and
a second user under "y"), updating "x" with a patch whose `id` field is
"z" rewrites only the "x" entry, leaves the "y" lookup unchanged, and
stores a record whose `id` field is "z", not its map key. -/
theorem c10_witness :
    MemStorage.updateUser c10MemFixture "x" c10UserPatch
      = (some (mergeUser c10User c10UserPatch),
         { c10MemFixture with
             users := c10MemFixture.users.set "x" (mergeUser c10User c10UserPatch) }) ∧
    (MemStorage.updateUser c10MemFixture "x" c10UserPatch).2.users.get "y"
      = c10MemFixture.users.get "y" ∧
    (mergeUser c10User c10UserPatch).id = "z" ∧
    MemStorage.updateReview c10MemFixture "x" c10ReviewPatch
      = (some (mergeReview c10Review c10ReviewPatch),
         { c10MemFixture with
             reviews := c10MemFixture.reviews.set "x" (mergeReview c10Review c10ReviewPatch) }) := by
  obtain ⟨ue, ug, uf, ui, pe, pg, pf2, pi, be, bg, bf2, bi, re, rg, rf2, ri⟩ :=
    c10_update_frame c10MemFixture "x" c10User c10UserPatch rfl
      c10Provider c10ProviderPatch rfl c10Booking c10BookingPatch rfl
      c10Review c10ReviewPatch rfl
  exact ⟨ue, uf "y" (by decide), ui "z" rfl, re⟩
